import Mathlib

/-!
Verification development for the Arrhenius artifact cache and derivation
pipeline (`src/api.py`) and its statistics utilities
(`src/data/statistics.py`).

The API layer is embedded as explicit state passing over a `SysState`
record modelling the durable store (the set of existing filesystem paths),
instrumentation counters for the external collaborators (Simulation Runner
and Renderer invocations), the `img_fs_lock` flag, and a counter of
filesystem writes to the image subsystem performed while the lock is not
held. Fallible operations return `Except`; an exceptional return carries
the system state at the moment the exception escapes.
-/

namespace Api

/-- Embeds `os.path.join` for one path component (no component in this code is
absolute and no argument is empty, so joining is plain concatenation with
a separator). -/
def pjoin (a b : String) : String := a ++ "/" ++ b

/-- Modelled from the spec: `OUTPUT_FULL_PATH` is imported from
`data.display`, which is not under `src/`; per the Durable Store layout it
is the fixed root directory of all model output (cf. `OUTPUT_REL_PATH =
'output/'` in `src/data/resources.py`). -/
def OUTPUT_FULL_PATH : String := "output"

/-- Modelled from the spec: `ArrheniusConfig` (module `core.configuration`,
not under `src/`) is an immutable validated configuration. The embedding
keeps the fields the API layer reads: `run_id()` (already rendered via
`str`), the two `colorbar()` color-scale bounds (already rendered as
strings, as `format` does), and the number of real time segments the run
produces (determined by the configuration; segment `0` is the cross-time
average image). -/
structure ArrheniusConfig where
  runId : String
  cb1 : String
  cb2 : String
  numSegs : Nat
deriving Repr, DecidableEq

/-- System state: the durable store as the set of existing paths, the
count of Simulation Runner invocations (`ModelRun.run_model`), the count
of image files the Renderer actually wrote, whether `img_fs_lock` is held,
and how many image-subsystem writes happened while it was not held. -/
structure SysState where
  files : List String
  runCount : Nat
  renderCount : Nat
  lockHeld : Bool
  unguardedWrites : Nat
deriving Repr, DecidableEq

/-- Computes `dataset_parent = path.join(OUTPUT_FULL_PATH, run_id)` (api.py line 82). -/
def dataset_parent_of (config : ArrheniusConfig) : String :=
  pjoin OUTPUT_FULL_PATH config.runId

/-- The dataset file served by `scientific_dataset`:
`run_id + ".nc"` inside the run id's directory (api.py line 167). -/
def dataset_file_of (config : ArrheniusConfig) : String :=
  pjoin (dataset_parent_of config) (config.runId ++ ".nc")

/-- Computes `"[{}x{}]".format(*config.colorbar())` (api.py line 245). -/
def scale_suffix_of (config : ArrheniusConfig) : String :=
  "[" ++ config.cb1 ++ "x" ++ config.cb2 ++ "]"

/-- Modelled from the spec: `ModelRun(config, output_center).run_model()`
(module `runner`, not under `src/`). Simulation Runner contract: after a
successful return, the dataset exists at the run id's canonical location;
side effect is exactly "dataset now exists at path P". The embedding
records the run directory, the dataset file inside it, and bumps the
runner-invocation counter. -/
def run_model (config : ArrheniusConfig) (s : SysState) : SysState :=
  { s with
    files := dataset_file_of config :: dataset_parent_of config :: s.files
    runCount := s.runCount + 1 }

/-- Embeds `ensure_model_results` (api.py lines 60-95): derive the run id and
dataset-parent path; if the path does not exist, invoke the Simulation
Runner; return the path and whether a new run was required. -/
def ensure_model_results (config : ArrheniusConfig) (s : SysState) :
    (String × Bool) × SysState :=
  let dataset_parent := dataset_parent_of config
  if dataset_parent ∈ s.files then
    ((dataset_parent, false), s)
  else
    ((dataset_parent, true), run_model config s)

/-- Modelled from the spec: `get_image_directory` (module `data.display`,
not under `src/`) is the Durable Store's `locate_image_dir`: a
deterministic path, "nested subdirectories per (run id, color-scale)
containing per-variable image subdirectories"; with `create=False` it has
no side effects. The color-scale directory name matches the
`scale_dir_name` that `multi_model_data` itself builds (api.py line 246). -/
def get_image_directory (ds_parent run_id var_name : String)
    (cb1 cb2 : String) : String :=
  pjoin (pjoin ds_parent (run_id ++ "_[" ++ cb1 ++ "x" ++ cb2 ++ "]")) var_name

/-- Modelled from the spec: `image_file_name` (module `data.display`, not
under `src/`) deterministically names an image file "by a composition of
run id, variable, and color-scale"; the endpoints pass a base name of the
form `varname + "_" + time_seg`. -/
def image_file_name (base : String) (config : ArrheniusConfig) : String :=
  config.runId ++ "_" ++ base ++ "_" ++ scale_suffix_of config

/-- The full path of the image file for `var_name` at segment `t` inside
the image directory below `ds_parent`. -/
def image_target (ds_parent var_name : String) (t : Nat)
    (config : ArrheniusConfig) : String :=
  pjoin (get_image_directory ds_parent config.runId var_name config.cb1 config.cb2)
    (image_file_name (var_name ++ "_" ++ toString t) config ++ ".png")

/-- Modelled from the spec: one Renderer write. The Renderer is
"idempotent per (variable, time_segment) — if the target image file
already exists the renderer must skip re-rendering that one file without
erroring". Returns whether it did work. A write performed while
`img_fs_lock` is not held bumps the unguarded-write counter. -/
def render_one (ds_parent var_name : String) (t : Nat)
    (config : ArrheniusConfig) (s : SysState) : Bool × SysState :=
  let target := image_target ds_parent var_name t config
  if target ∈ s.files then
    (false, s)
  else
    (true,
      { s with
        files := target :: s.files
        renderCount := s.renderCount + 1
        unguardedWrites :=
          if s.lockHeld then s.unguardedWrites else s.unguardedWrites + 1 })

/-- The Renderer's fan-out loop over a list of time segments: render each
segment in turn, accumulating whether any work was done. -/
def render_fold (ds_parent var_name : String) (config : ArrheniusConfig)
    (l : List Nat) (acc : Bool × SysState) : Bool × SysState :=
  l.foldl
    (fun acc t =>
      let step := render_one ds_parent var_name t config acc.2
      (acc.1 || step.1, step.2))
    acc

/-- Modelled from the spec: `save_from_dataset` (module `data.display`,
not under `src/`), the Renderer entry point. It "requires the dataset
identified by `dataset_parent` to already exist" and fails otherwise (it
never triggers a simulation run); given a time segment it renders that one
image, and given none it fans out to "one image per segment plus an
implicit average" (segment 0), skipping images that already exist.
`created` is true iff the Renderer did any work at all. -/
def save_from_dataset (ds_parent var_name : String) (time_seg : Option Nat)
    (config : ArrheniusConfig) (s : SysState) :
    Except Unit (Bool × SysState) :=
  if pjoin ds_parent (config.runId ++ ".nc") ∈ s.files then
    match time_seg with
    | some t => Except.ok (render_one ds_parent var_name t config s)
    | none =>
        Except.ok (render_fold ds_parent var_name config
          (List.range (config.numSegs + 1)) (false, s))
  else
    Except.error ()

/-- Embeds `ensure_image_output` (api.py lines 98-132): delegate to the Renderer
(`save_from_dataset`), then compute the image directory with
`get_image_directory(..., create=False)`; return the directory and the
Renderer's created flag. An exception from the Renderer propagates. -/
def ensure_image_output (ds_parent var_name : String) (time_seg : Option Nat)
    (config : ArrheniusConfig) (s : SysState) :
    Except Unit ((String × Bool) × SysState) :=
  match save_from_dataset ds_parent var_name time_seg config s with
  | Except.error e => Except.error e
  | Except.ok (created, s1) =>
      let img_parent :=
        get_image_directory ds_parent config.runId var_name config.cb1 config.cb2
      Except.ok ((img_parent, created), s1)

/-- Python stdlib `shutil.make_archive(base_name, 'zip', root_dir)`:
creates the archive file `base_name + ".zip"` from the contents of
`root_dir`. A write performed while `img_fs_lock` is not held bumps the
unguarded-write counter. -/
def make_archive (base_name : String) (s : SysState) : SysState :=
  { s with
    files := (base_name ++ ".zip") :: s.files
    unguardedWrites :=
      if s.lockHeld then s.unguardedWrites else s.unguardedWrites + 1 }

/-- The path a `send_from_directory(directory, file_name)` response serves
the attached file from. -/
def served_path (directory file_name : String) : String :=
  pjoin directory file_name

/-- An endpoint response: the directory and file name handed to
`send_from_directory`, and the HTTP status code. -/
structure Response where
  directory : String
  fileName : String
  status : Nat
deriving Repr, DecidableEq

/-- Embeds `scientific_dataset` (api.py lines 150-175): ensure the dataset, then
serve `run_id + ".nc"` from the dataset-parent directory with status 201
iff a new model run was required. -/
def scientific_dataset (config : ArrheniusConfig) (s : SysState) :
    Response × SysState :=
  let dataset_name := config.runId ++ ".nc"
  let r := ensure_model_results config s
  (⟨r.1.1, dataset_name, if r.1.2 then 201 else 200⟩, r.2)

/-- Embeds `single_model_data` (api.py lines 178-219): ensure the dataset, then
`img_fs_lock.acquire()`; `ensure_image_output` for the requested segment;
`img_fs_lock.release()`; serve the image with status 201 iff the dataset
or the image was created. The acquire/release pair is written with no
`try/finally`, so an exception raised by `ensure_image_output` escapes
between them: the exceptional return carries the state at that moment,
with the lock still held. -/
def single_model_data (varname : String) (time_seg : Nat)
    (config : ArrheniusConfig) (s : SysState) :
    Except SysState (Response × SysState) :=
  let r := ensure_model_results config s
  let parent_dir := r.1.1
  let model_created := r.1.2
  let s1 := r.2
  let s2 := { s1 with lockHeld := true }
  match ensure_image_output parent_dir varname (some time_seg) config s2 with
  | Except.error _ => Except.error s2
  | Except.ok ((download_path, img_created), s3) =>
      let s4 := { s3 with lockHeld := false }
      let base_name := varname ++ "_" ++ toString time_seg
      let file_name := image_file_name base_name config ++ ".png"
      let response_code := if model_created || img_created then 201 else 200
      Except.ok (⟨download_path, file_name, response_code⟩, s4)

/-- Embeds `multi_model_data` (api.py lines 222-263): ensure the dataset; build
`scale_dir_name` and `archive_name`; if `archive_path + ".zip"` is not a
file, call `ensure_image_output` with no time segment and
`shutil.make_archive` over the resulting image directory; serve
`archive_name + ".zip"` from `ds_parent` with status 201 iff the dataset
or an image was created. No `img_fs_lock` operation occurs anywhere in
this endpoint. -/
def multi_model_data (varname : String) (config : ArrheniusConfig)
    (s : SysState) : Except SysState (Response × SysState) :=
  let scale_suffix := scale_suffix_of config
  let scale_dir_name := config.runId ++ "_" ++ scale_suffix
  let archive_name := config.runId ++ "_" ++ varname ++ "_" ++ scale_suffix
  let r := ensure_model_results config s
  let ds_parent := r.1.1
  let model_created := r.1.2
  let s1 := r.2
  let archive_path := pjoin (pjoin ds_parent scale_dir_name) archive_name
  if (archive_path ++ ".zip") ∈ s1.files then
    Except.ok (⟨ds_parent, archive_name ++ ".zip",
      if model_created then 201 else 200⟩, s1)
  else
    match ensure_image_output ds_parent varname none config s1 with
    | Except.error _ => Except.error s1
    | Except.ok ((archive_src, img_created), s2) =>
        let _ := archive_src
        let s3 := make_archive archive_path s2
        let response_code := if model_created || img_created then 201 else 200
        Except.ok (⟨ds_parent, archive_name ++ ".zip", response_code⟩, s3)

/-- Embeds `error_template` (api.py lines 266-290): HTML markup with the title
in the header and the message in the body. -/
def error_template (title msg : String) : String :=
  let head := "<DOCTYPE html>"
    ++ "\n<head>"
    ++ "\n  <title>" ++ title ++ "</title>"
    ++ "\n</head>"
  let body := "<body>"
    ++ "\n  <h1>" ++ title ++ "</h1>"
    ++ "\n  <hr>"
    ++ "\n  <p>" ++ msg ++ "</p>"
    ++ "\n</body>"
  head ++ "\n" ++ body

/-- Embeds `handle_enomem` (api.py lines 308-330), the `IOError` handler, as a
function of the error's `errno`: errno 28 (storage exhaustion) yields the
Insufficient Space page with status 413; every other `IOError` yields the
Failed Disk IO page with status 500. -/
def handle_enomem (errno : Int) : String × Nat :=
  if errno = 28 then
    let msg := "The server has insufficient disk space to produce output"
      ++ " from a model run, and has failed to either produce a dataset"
      ++ " for model results or to write image files from said results."
      ++ " Consider placing a request for fewer resources at a time to"
      ++ " lighten the load on server while it tries to free up space."
    (error_template "Insufficient Space" msg, 413)
  else
    let msg := "The server has failed to perform disk IO, most likely due to a"
      ++ " malformed path. Please report this error to project engineers."
    (error_template "Failed Disk IO" msg, 500)

/-- Embeds `handle_failure` (api.py lines 333-349), the catch-all handler for
errors that would produce HTTP 500. Its argument (here the error rendered
as a string) is ignored: the page is a fixed apology carrying no detail
derived from the error. -/
def handle_failure (err : String) : String × Nat :=
  let _ := err
  let msg := "We are sorry, but our server is still young and has experienced an"
    ++ " unexpected error. Please report this error to project engineers to"
    ++ " get it patched sooner."
  (error_template "Internal Error" msg, 500)

/-- The system state an endpoint run ends in (on the exceptional path,
the state carried by the escaped exception). -/
def finalStateOf (r : Except SysState (Response × SysState)) : SysState :=
  match r with
  | Except.error s => s
  | Except.ok (_, s) => s

/-- The response of a successful endpoint run (a dummy response on the
exceptional path). -/
def responseOf (r : Except SysState (Response × SysState)) : Response :=
  match r with
  | Except.error _ => ⟨"", "", 0⟩
  | Except.ok (resp, _) => resp

/-! ### Interleaved model of concurrent `ensure_model_results` calls

`ensure_model_results` takes no lock, so its existence check (api.py line
85) and the model run it triggers (lines 89-93) are separate, atomically
observable steps of a thread. The small-step decomposition below lets two
threads executing `ensure_model_results` on the same configuration
interleave between the check and the run. -/

/-- Program counter of one thread running `ensure_model_results`:
before the existence check, after a negative check (about to run the
model), or returned with its result. -/
inductive RunPhase where
  | start : RunPhase
  | toRun : RunPhase
  | finished : String → Bool → RunPhase
deriving Repr, DecidableEq

/-- One atomic step of a thread executing `ensure_model_results config`:
from `start`, perform the existence check (api.py line 85) and either
return a cache hit or move to the run phase; from `toRun`, invoke the
Simulation Runner (lines 89-93) and return. -/
def ensure_step (config : ArrheniusConfig) :
    RunPhase → SysState → RunPhase × SysState
  | RunPhase.start, s =>
      if dataset_parent_of config ∈ s.files then
        (RunPhase.finished (dataset_parent_of config) false, s)
      else
        (RunPhase.toRun, s)
  | RunPhase.toRun, s =>
      (RunPhase.finished (dataset_parent_of config) true, run_model config s)
  | RunPhase.finished p c, s => (RunPhase.finished p c, s)

/-- Two threads concurrently executing `ensure_model_results` on the same
configuration, with the shared system state. -/
structure ConcState where
  pc1 : RunPhase
  pc2 : RunPhase
  sys : SysState
deriving Repr, DecidableEq

/-- Scheduler step: `true` steps thread 1, `false` steps thread 2. -/
def sched_step (config : ArrheniusConfig) (st : ConcState) (who : Bool) :
    ConcState :=
  if who then
    let r := ensure_step config st.pc1 st.sys
    { st with pc1 := r.1, sys := r.2 }
  else
    let r := ensure_step config st.pc2 st.sys
    { st with pc2 := r.1, sys := r.2 }

/-- Run a schedule (a list of thread choices) from a concurrent state. -/
def run_sched (config : ArrheniusConfig) (sched : List Bool)
    (st : ConcState) : ConcState :=
  sched.foldl (sched_step config) st

/-! ### Concrete inputs used by witnesses and counterexamples -/

/-- A concrete configuration: run id `"X"`, color scale `(1, 2)`, one
real time segment (so the Renderer's fan-out covers segments `0` and `1`). -/
def cfgX : ArrheniusConfig := ⟨"X", "1", "2", 1⟩

/-- An empty durable store, lock free, no collaborator invoked yet. -/
def emptyFS : SysState := ⟨[], 0, 0, false, 0⟩

/-- A store holding only the dataset-parent directory of `cfgX` but not
the dataset file inside it: a half-written run, the spec's
existence-as-completion-marker hazard. -/
def halfWrittenFS : SysState := ⟨[dataset_parent_of cfgX], 0, 0, false, 0⟩

/-- A store holding the complete dataset of `cfgX` (directory and file). -/
def dsOnlyFS : SysState :=
  ⟨[dataset_file_of cfgX, dataset_parent_of cfgX], 1, 0, false, 0⟩

/-- A store holding the complete dataset of `cfgX` and every per-segment
image of variable `"temperature"` (segments 0 and 1), but no archive. -/
def allImagesFS : SysState :=
  ⟨image_target (dataset_parent_of cfgX) "temperature" 1 cfgX ::
   image_target (dataset_parent_of cfgX) "temperature" 0 cfgX ::
   dataset_file_of cfgX :: dataset_parent_of cfgX :: [], 1, 2, false, 0⟩

/-! ### Effect of each collaborator on the instrumentation counters -/

theorem run_model_counters (config : ArrheniusConfig) (s : SysState) :
    (run_model config s).runCount = s.runCount + 1 ∧
    (run_model config s).renderCount = s.renderCount ∧
    (run_model config s).lockHeld = s.lockHeld :=
  ⟨rfl, rfl, rfl⟩

theorem render_one_runCount (p v : String) (t : Nat) (c : ArrheniusConfig)
    (s : SysState) : (render_one p v t c s).2.runCount = s.runCount := by
  by_cases h : image_target p v t c ∈ s.files <;> simp [render_one, h]

theorem render_one_lockHeld (p v : String) (t : Nat) (c : ArrheniusConfig)
    (s : SysState) : (render_one p v t c s).2.lockHeld = s.lockHeld := by
  by_cases h : image_target p v t c ∈ s.files <;> simp [render_one, h]

theorem render_one_renderCount (p v : String) (t : Nat) (c : ArrheniusConfig)
    (s : SysState) :
    (render_one p v t c s).2.renderCount =
      (if (render_one p v t c s).1 then s.renderCount + 1 else s.renderCount) := by
  by_cases h : image_target p v t c ∈ s.files <;> simp [render_one, h]

theorem render_fold_nil (p v : String) (c : ArrheniusConfig)
    (acc : Bool × SysState) : render_fold p v c [] acc = acc := rfl

theorem render_fold_cons (p v : String) (c : ArrheniusConfig) (t : Nat)
    (ts : List Nat) (acc : Bool × SysState) :
    render_fold p v c (t :: ts) acc =
      render_fold p v c ts
        (acc.1 || (render_one p v t c acc.2).1, (render_one p v t c acc.2).2) :=
  rfl

theorem render_fold_runCount (p v : String) (c : ArrheniusConfig)
    (l : List Nat) (acc : Bool × SysState) :
    (render_fold p v c l acc).2.runCount = acc.2.runCount := by
  induction l generalizing acc with
  | nil => rfl
  | cons t ts ih =>
      rw [render_fold_cons, ih]
      exact render_one_runCount p v t c acc.2

theorem render_fold_lockHeld (p v : String) (c : ArrheniusConfig)
    (l : List Nat) (acc : Bool × SysState) :
    (render_fold p v c l acc).2.lockHeld = acc.2.lockHeld := by
  induction l generalizing acc with
  | nil => rfl
  | cons t ts ih =>
      rw [render_fold_cons, ih]
      exact render_one_lockHeld p v t c acc.2

theorem render_fold_renderCount_le (p v : String) (c : ArrheniusConfig)
    (l : List Nat) (acc : Bool × SysState) :
    acc.2.renderCount ≤ (render_fold p v c l acc).2.renderCount := by
  induction l generalizing acc with
  | nil => exact Nat.le_refl _
  | cons t ts ih =>
      rw [render_fold_cons]
      refine Nat.le_trans ?_ (ih _)
      rw [render_one_renderCount]
      split
      · exact Nat.le_succ _
      · exact Nat.le_refl _

theorem render_fold_created_iff (p v : String) (c : ArrheniusConfig)
    (l : List Nat) (acc : Bool × SysState) :
    ((render_fold p v c l acc).1 = true ↔
      (acc.1 = true ∨
        (render_fold p v c l acc).2.renderCount ≠ acc.2.renderCount)) := by
  induction l generalizing acc with
  | nil => simp [render_fold_nil]
  | cons t ts ih =>
      rw [render_fold_cons]
      by_cases hc : (render_one p v t c acc.2).1 = true
      · have hrc1 : (render_one p v t c acc.2).2.renderCount =
            acc.2.renderCount + 1 := by
          rw [render_one_renderCount, if_pos hc]
        have hle := render_fold_renderCount_le p v c ts
          (acc.1 || (render_one p v t c acc.2).1, (render_one p v t c acc.2).2)
        rw [ih]
        constructor
        · intro _
          right
          have hge : acc.2.renderCount + 1 ≤
              (render_fold p v c ts
                (acc.1 || (render_one p v t c acc.2).1,
                  (render_one p v t c acc.2).2)).2.renderCount := by
            rw [← hrc1]
            exact hle
          omega
        · intro _
          left
          simp [hc]
      · have hrc1 : (render_one p v t c acc.2).2.renderCount =
            acc.2.renderCount := by
          rw [render_one_renderCount, if_neg hc]
        have hc' : (render_one p v t c acc.2).1 = false :=
          Bool.eq_false_iff.mpr hc
        rw [ih]
        simp [hc', hrc1]

theorem make_archive_counters (b : String) (s : SysState) :
    (make_archive b s).runCount = s.runCount ∧
    (make_archive b s).renderCount = s.renderCount ∧
    (make_archive b s).lockHeld = s.lockHeld :=
  ⟨rfl, rfl, rfl⟩

/-! ### Characterization of `ensure_model_results` -/

theorem ensure_model_results_path (c : ArrheniusConfig) (s : SysState) :
    (ensure_model_results c s).1.1 = dataset_parent_of c := by
  by_cases h : dataset_parent_of c ∈ s.files <;> simp [ensure_model_results, h]

theorem ensure_model_results_created_iff (c : ArrheniusConfig) (s : SysState) :
    ((ensure_model_results c s).1.2 = true ↔ dataset_parent_of c ∉ s.files) := by
  by_cases h : dataset_parent_of c ∈ s.files <;> simp [ensure_model_results, h]

theorem ensure_model_results_runCount (c : ArrheniusConfig) (s : SysState) :
    (ensure_model_results c s).2.runCount =
      (if (ensure_model_results c s).1.2 then s.runCount + 1 else s.runCount) := by
  by_cases h : dataset_parent_of c ∈ s.files <;>
    simp [ensure_model_results, h, run_model]

theorem ensure_model_results_renderCount (c : ArrheniusConfig) (s : SysState) :
    (ensure_model_results c s).2.renderCount = s.renderCount := by
  by_cases h : dataset_parent_of c ∈ s.files <;>
    simp [ensure_model_results, h, run_model]

theorem ensure_model_results_lockHeld (c : ArrheniusConfig) (s : SysState) :
    (ensure_model_results c s).2.lockHeld = s.lockHeld := by
  by_cases h : dataset_parent_of c ∈ s.files <;>
    simp [ensure_model_results, h, run_model]

theorem ensure_model_results_parent_mem (c : ArrheniusConfig) (s : SysState) :
    dataset_parent_of c ∈ (ensure_model_results c s).2.files := by
  by_cases h : dataset_parent_of c ∈ s.files <;>
    simp [ensure_model_results, h, run_model]

/-! ### Characterization of `ensure_image_output` -/

theorem ensure_image_output_error_of_no_dataset (p v : String)
    (ts : Option Nat) (c : ArrheniusConfig) (s : SysState)
    (h : pjoin p (c.runId ++ ".nc") ∉ s.files) :
    ensure_image_output p v ts c s = Except.error () := by
  unfold ensure_image_output save_from_dataset
  rw [if_neg h]

theorem ensure_image_output_some_eq (p v : String) (t : Nat)
    (c : ArrheniusConfig) (s : SysState)
    (hds : pjoin p (c.runId ++ ".nc") ∈ s.files) :
    ensure_image_output p v (some t) c s =
      Except.ok ((get_image_directory p c.runId v c.cb1 c.cb2,
        (render_one p v t c s).1), (render_one p v t c s).2) := by
  unfold ensure_image_output save_from_dataset
  rw [if_pos hds]

theorem ensure_image_output_none_eq (p v : String)
    (c : ArrheniusConfig) (s : SysState)
    (hds : pjoin p (c.runId ++ ".nc") ∈ s.files) :
    ensure_image_output p v none c s =
      Except.ok ((get_image_directory p c.runId v c.cb1 c.cb2,
        (render_fold p v c (List.range (c.numSegs + 1)) (false, s)).1),
        (render_fold p v c (List.range (c.numSegs + 1)) (false, s)).2) := by
  unfold ensure_image_output save_from_dataset
  rw [if_pos hds]

theorem ensure_image_output_ok_spec (p v : String) (ts : Option Nat)
    (c : ArrheniusConfig) (s : SysState) (res : String × Bool) (s1 : SysState)
    (h : ensure_image_output p v ts c s = Except.ok (res, s1)) :
    s1.runCount = s.runCount ∧ s1.lockHeld = s.lockHeld ∧
    (res.2 = true ↔ s1.renderCount ≠ s.renderCount) := by
  by_cases hds : pjoin p (c.runId ++ ".nc") ∈ s.files
  · cases ts with
    | some t =>
        rw [ensure_image_output_some_eq p v t c s hds] at h
        simp only [Except.ok.injEq, Prod.mk.injEq] at h
        obtain ⟨hres, hs1⟩ := h
        subst hres
        subst hs1
        refine ⟨render_one_runCount p v t c s, render_one_lockHeld p v t c s, ?_⟩
        rw [render_one_renderCount]
        by_cases hc : (render_one p v t c s).1 = true <;> simp [hc]
    | none =>
        rw [ensure_image_output_none_eq p v c s hds] at h
        simp only [Except.ok.injEq, Prod.mk.injEq] at h
        obtain ⟨hres, hs1⟩ := h
        subst hres
        subst hs1
        refine ⟨render_fold_runCount p v c _ _, render_fold_lockHeld p v c _ _, ?_⟩
        have := render_fold_created_iff p v c (List.range (c.numSegs + 1)) (false, s)
        simpa using this
  · rw [ensure_image_output_error_of_no_dataset p v ts c s hds] at h
    exact absurd h (by simp)

/-! ### Claim theorems -/

/-- C1: the claim states that under concurrent `ensure_model_results`
invocations with the same configuration the Simulation Runner is invoked
exactly once. `ensure_model_results` takes no lock, so two threads may
both pass the existence check before either runs the model: under the
schedule check-1, check-2, run-1, run-2 from an empty store, the
Simulation Runner is invoked twice (`runCount = 2`), although both calls
do return the same dataset-parent path. -/
theorem concurrent_ensure_runs_model_twice :
    (run_sched cfgX [true, false, true, false]
        ⟨RunPhase.start, RunPhase.start, emptyFS⟩).sys.runCount = 2 ∧
    (run_sched cfgX [true, false, true, false]
        ⟨RunPhase.start, RunPhase.start, emptyFS⟩).pc1 =
      RunPhase.finished (dataset_parent_of cfgX) true ∧
    (run_sched cfgX [true, false, true, false]
        ⟨RunPhase.start, RunPhase.start, emptyFS⟩).pc2 =
      RunPhase.finished (dataset_parent_of cfgX) true :=
  ⟨rfl, rfl, rfl⟩

/-- C2: starting from a store in which the dataset-parent path of the
configuration does not exist, calling `ensure_model_results` twice in
sequence invokes the Simulation Runner exactly once (final `runCount` is
the initial one plus one); the first call reports `created = true`, the
second reports `created = false`, returns the same path, and leaves the
state of the first call unchanged. -/
theorem ensure_model_results_cache_idempotent (config : ArrheniusConfig)
    (s : SysState) (h : dataset_parent_of config ∉ s.files) :
    (ensure_model_results config s).1.2 = true ∧
    (ensure_model_results config (ensure_model_results config s).2).1.2 = false ∧
    (ensure_model_results config (ensure_model_results config s).2).1.1 =
      (ensure_model_results config s).1.1 ∧
    (ensure_model_results config (ensure_model_results config s).2).2.runCount =
      s.runCount + 1 ∧
    (ensure_model_results config (ensure_model_results config s).2).2 =
      (ensure_model_results config s).2 := by
  have h1 : ensure_model_results config s =
      ((dataset_parent_of config, true), run_model config s) := by
    simp [ensure_model_results, h]
  have h2 : dataset_parent_of config ∈ (run_model config s).files := by
    simp [run_model]
  rw [h1]
  simp [ensure_model_results, h2, run_model]

/-- Witness for C2 at the concrete configuration `cfgX` and the empty
store. -/
theorem ensure_model_results_cache_idempotent_witness :
    dataset_parent_of cfgX ∉ emptyFS.files ∧
    ((ensure_model_results cfgX emptyFS).1.2 = true ∧
     (ensure_model_results cfgX (ensure_model_results cfgX emptyFS).2).1.2 = false ∧
     (ensure_model_results cfgX (ensure_model_results cfgX emptyFS).2).1.1 =
       (ensure_model_results cfgX emptyFS).1.1 ∧
     (ensure_model_results cfgX (ensure_model_results cfgX emptyFS).2).2.runCount =
       emptyFS.runCount + 1 ∧
     (ensure_model_results cfgX (ensure_model_results cfgX emptyFS).2).2 =
       (ensure_model_results cfgX emptyFS).2) :=
  ⟨by decide, ensure_model_results_cache_idempotent cfgX emptyFS (by decide)⟩

/-- The run of `multi_model_data` for variable `"temperature"` under
`cfgX` from an empty store, used to exhibit the archive path mismatch. -/
def multiRunEmpty : Except SysState (Response × SysState) :=
  multi_model_data "temperature" cfgX emptyFS

/-- C3: the claim states that after `multi_model_data` builds the archive,
the zip file exists at the path the response serves it from. The code
creates the archive at `ds_parent/scale_dir_name/archive_name + ".zip"`
(the `shutil.make_archive` base is `path.join(ds_parent, scale_dir_name,
archive_name)`, api.py lines 250 and 258) but serves
`send_from_directory(ds_parent, archive_name + ".zip")` (line 262), i.e.
`ds_parent/archive_name + ".zip"` — a different path. On a request from an
empty store the per-segment images are produced and the zip is created
under the color-scale directory, yet no file exists at the served path. -/
theorem multi_model_data_archive_path_mismatch :
    served_path (responseOf multiRunEmpty).directory
        (responseOf multiRunEmpty).fileName =
      "output/X/X_temperature_[1x2].zip" ∧
    "output/X/X_temperature_[1x2].zip" ∉ (finalStateOf multiRunEmpty).files ∧
    "output/X/X_[1x2]/X_temperature_[1x2].zip" ∈
      (finalStateOf multiRunEmpty).files ∧
    "output/X/X_[1x2]/temperature/X_temperature_0_[1x2].png" ∈
      (finalStateOf multiRunEmpty).files ∧
    "output/X/X_[1x2]/temperature/X_temperature_1_[1x2].png" ∈
      (finalStateOf multiRunEmpty).files ∧
    (responseOf multiRunEmpty).status = 201 := by
  decide

/-- C4: the claim states that `single_model_data` releases `img_fs_lock`
on every exit path, including the one where `ensure_image_output` raises.
The code acquires and releases the lock with no `try/finally` (api.py
lines 208-211), so when `ensure_image_output` raises — here from a
half-written run whose directory exists but whose dataset file does not —
the exception escapes with the lock still held. -/
theorem single_model_data_lock_leak_on_error :
    single_model_data "temperature" 2 cfgX halfWrittenFS =
      Except.error ⟨[dataset_parent_of cfgX], 0, 0, true, 0⟩ ∧
    SysState.lockHeld ⟨[dataset_parent_of cfgX], 0, 0, true, 0⟩ = true :=
  ⟨rfl, rfl⟩

/-- C5: the claim states that `img_fs_lock` is held during every
check-or-create of image or archive artifacts, in particular during the
archive-existence check, the image fan-out and the archive creation of
`multi_model_data`. The code of `multi_model_data` contains no lock
operation at all: the endpoint leaves the lock state untouched on every
input, and a concrete run that renders two images and builds the archive
performs all three writes while the lock is not held. -/
theorem multi_model_data_bypasses_img_fs_lock :
    (∀ (v : String) (c : ArrheniusConfig) (s : SysState),
        (finalStateOf (multi_model_data v c s)).lockHeld = s.lockHeld) ∧
    (finalStateOf (multi_model_data "temperature" cfgX dsOnlyFS)).unguardedWrites
      = 3 ∧
    (finalStateOf (multi_model_data "temperature" cfgX dsOnlyFS)).lockHeld
      = false := by
  refine ⟨?_, by decide, by decide⟩
  intro v c s
  unfold multi_model_data
  have hL := ensure_model_results_lockHeld c s
  set r := ensure_model_results c s with hr
  by_cases hz :
      (pjoin (pjoin r.1.1 (c.runId ++ "_" ++ scale_suffix_of c))
        (c.runId ++ "_" ++ v ++ "_" ++ scale_suffix_of c) ++ ".zip") ∈ r.2.files
  · simp only [if_pos hz, finalStateOf]
    exact hL
  · simp only [if_neg hz]
    cases hE : ensure_image_output r.1.1 v none c r.2 with
    | error e => simpa [finalStateOf] using hL
    | ok val =>
        obtain ⟨res, s2⟩ := val
        have hspec := ensure_image_output_ok_spec r.1.1 v none c r.2 res s2 hE
        simp only [finalStateOf, make_archive]
        rw [hspec.2.1]
        exact hL

/-- C6: `ensure_image_output` never invokes the Simulation Runner: on
every successful return the runner-invocation count is unchanged, and
when no dataset exists below the given dataset-parent path it fails
(raises) instead of creating one. -/
theorem ensure_image_output_no_simulation (p v : String) (ts : Option Nat)
    (c : ArrheniusConfig) (s : SysState) :
    (pjoin p (c.runId ++ ".nc") ∉ s.files →
        ensure_image_output p v ts c s = Except.error ()) ∧
    (∀ res s1, ensure_image_output p v ts c s = Except.ok (res, s1) →
        s1.runCount = s.runCount) :=
  ⟨fun h => ensure_image_output_error_of_no_dataset p v ts c s h,
   fun res s1 h => (ensure_image_output_ok_spec p v ts c s res s1 h).1⟩

/-- Witness for C6: from the empty store the call fails, and on a
successful call from a store holding the dataset the runner count is
unchanged. -/
theorem ensure_image_output_no_simulation_witness :
    (pjoin (dataset_parent_of cfgX) (cfgX.runId ++ ".nc") ∉ emptyFS.files ∧
     ensure_image_output (dataset_parent_of cfgX) "temperature" (some 2) cfgX
       emptyFS = Except.error ()) ∧
    SysState.runCount
        ⟨["output/X/X_[1x2]/temperature/X_temperature_2_[1x2].png",
          "output/X/X.nc", "output/X"], 1, 1, false, 1⟩ =
      dsOnlyFS.runCount :=
  ⟨⟨by decide,
    (ensure_image_output_no_simulation (dataset_parent_of cfgX) "temperature"
      (some 2) cfgX emptyFS).1 (by decide)⟩,
   (ensure_image_output_no_simulation (dataset_parent_of cfgX) "temperature"
      (some 2) cfgX dsOnlyFS).2
     ("output/X/X_[1x2]/temperature", true)
     ⟨["output/X/X_[1x2]/temperature/X_temperature_2_[1x2].png",
       "output/X/X.nc", "output/X"], 1, 1, false, 1⟩
     (by rfl)⟩

/-- C7: the `IOError` handler classifies errno 28 (storage exhaustion) as
the capacity fault with HTTP status 413; every other errno gets the
generic disk-IO fault with status 500, a different page; and the
catch-all 500 handler is a constant function of the error — its body
carries no detail derived from the error. -/
theorem error_handlers_classification (e : Int) (he : e ≠ 28) (x y : String) :
    (handle_enomem 28).2 = 413 ∧
    (handle_enomem e).2 = 500 ∧
    handle_enomem e ≠ handle_enomem 28 ∧
    handle_failure x = handle_failure y ∧
    (handle_failure x).2 = 500 := by
  refine ⟨rfl, ?_, ?_, rfl, rfl⟩
  · simp [handle_enomem, he]
  · simp [handle_enomem, he, Prod.ext_iff]

/-- Witness for C7 at errno 2 and two distinct error strings. -/
theorem error_handlers_classification_witness :
    ((2 : Int) ≠ 28) ∧
    ((handle_enomem 28).2 = 413 ∧
     (handle_enomem 2).2 = 500 ∧
     handle_enomem 2 ≠ handle_enomem 28 ∧
     handle_failure "a" = handle_failure "b" ∧
     (handle_failure "a").2 = 500) :=
  ⟨by decide, error_handlers_classification 2 (by decide) "a" "b"⟩

/-- C8 counterexample: the claim states that an artifact-serving endpoint
returns 201 if and only if at least one artifact (dataset, image, or
archive) was newly created. From a store holding the dataset and all
per-segment images of `"temperature"` but no archive, `multi_model_data`
newly creates the archive zip yet returns status 200: the response code is
computed from the dataset and image flags only (api.py line 261), so
archive creation alone does not yield 201. -/
theorem multi_model_data_archive_creation_returns_200 :
    (responseOf (multi_model_data "temperature" cfgX allImagesFS)).status
      = 200 ∧
    "output/X/X_[1x2]/X_temperature_[1x2].zip" ∈
      (finalStateOf (multi_model_data "temperature" cfgX allImagesFS)).files ∧
    "output/X/X_[1x2]/X_temperature_[1x2].zip" ∉ allImagesFS.files := by
  decide

theorem single_model_data_eq (v : String) (t : Nat) (c : ArrheniusConfig)
    (s : SysState) :
    single_model_data v t c s =
      (match ensure_image_output (ensure_model_results c s).1.1 v (some t) c
          { (ensure_model_results c s).2 with lockHeld := true } with
      | Except.error _ =>
          Except.error { (ensure_model_results c s).2 with lockHeld := true }
      | Except.ok ((dp, ic), s3) =>
          Except.ok (⟨dp, image_file_name (v ++ "_" ++ toString t) c ++ ".png",
            if (ensure_model_results c s).1.2 || ic then 201 else 200⟩,
            { s3 with lockHeld := false })) :=
  rfl

theorem multi_model_data_eq (v : String) (c : ArrheniusConfig)
    (s : SysState) :
    multi_model_data v c s =
      (if (pjoin (pjoin (ensure_model_results c s).1.1
            (c.runId ++ "_" ++ scale_suffix_of c))
            (c.runId ++ "_" ++ v ++ "_" ++ scale_suffix_of c) ++ ".zip") ∈
          (ensure_model_results c s).2.files then
        Except.ok (⟨(ensure_model_results c s).1.1,
          c.runId ++ "_" ++ v ++ "_" ++ scale_suffix_of c ++ ".zip",
          if (ensure_model_results c s).1.2 then 201 else 200⟩,
          (ensure_model_results c s).2)
      else
        match ensure_image_output (ensure_model_results c s).1.1 v none c
            (ensure_model_results c s).2 with
        | Except.error _ => Except.error (ensure_model_results c s).2
        | Except.ok ((_asrc, ic), s2) =>
            Except.ok (⟨(ensure_model_results c s).1.1,
              c.runId ++ "_" ++ v ++ "_" ++ scale_suffix_of c ++ ".zip",
              if (ensure_model_results c s).1.2 || ic then 201 else 200⟩,
              make_archive (pjoin (pjoin (ensure_model_results c s).1.1
                (c.runId ++ "_" ++ scale_suffix_of c))
                (c.runId ++ "_" ++ v ++ "_" ++ scale_suffix_of c)) s2)) :=
  rfl

/-- C8 amended: each artifact-serving endpoint returns 201 exactly when
the Simulation Runner or the Renderer did work while serving the request
(the dataset or an image was newly created); creating the archive alone
does not affect the status. In particular a request whose dataset was
cached but whose image was newly rendered returns 201 (Renderer count
grew), and a multi-image request that builds the archive over fully
cached images returns 200. -/
theorem endpoints_status_201_iff_collaborator_work (v : String) (t : Nat)
    (c : ArrheniusConfig) (s : SysState) :
    ((scientific_dataset c s).1.status = 201 ↔
      (scientific_dataset c s).2.runCount ≠ s.runCount) ∧
    (∀ resp s1, single_model_data v t c s = Except.ok (resp, s1) →
        (resp.status = 201 ↔
          (s1.runCount ≠ s.runCount ∨ s1.renderCount ≠ s.renderCount))) ∧
    (∀ resp s1, multi_model_data v c s = Except.ok (resp, s1) →
        (resp.status = 201 ↔
          (s1.runCount ≠ s.runCount ∨ s1.renderCount ≠ s.renderCount))) := by
  have hrc := ensure_model_results_runCount c s
  have hren := ensure_model_results_renderCount c s
  refine ⟨?_, ?_, ?_⟩
  · show (if (ensure_model_results c s).1.2 then 201 else 200) = 201 ↔
      (ensure_model_results c s).2.runCount ≠ s.runCount
    by_cases hm : (ensure_model_results c s).1.2 = true
    · rw [if_pos hm] at hrc
      rw [hm, hrc]
      constructor
      · intro _
        omega
      · intro _
        rfl
    · rw [if_neg hm] at hrc
      rw [Bool.eq_false_iff.mpr hm, hrc]
      constructor
      · intro habs
        exact absurd habs (by decide)
      · intro habs
        exact absurd rfl habs
  · intro resp s1 h
    rw [single_model_data_eq] at h
    rcases hE : ensure_image_output (ensure_model_results c s).1.1 v (some t) c
        { (ensure_model_results c s).2 with lockHeld := true }
      with e | ⟨⟨dp, ic⟩, s3⟩
    · rw [hE] at h
      exact absurd h (by simp)
    · rw [hE] at h
      simp only [Except.ok.injEq, Prod.mk.injEq] at h
      obtain ⟨hresp, hs1⟩ := h
      subst hresp
      subst hs1
      have hspec := ensure_image_output_ok_spec (ensure_model_results c s).1.1
        v (some t) c { (ensure_model_results c s).2 with lockHeld := true }
        (dp, ic) s3 hE
      have h31 : s3.runCount = (ensure_model_results c s).2.runCount := hspec.1
      have h32 : (ic = true ↔
          s3.renderCount ≠ (ensure_model_results c s).2.renderCount) :=
        hspec.2.2
      show (if ((ensure_model_results c s).1.2 || ic) then 201 else 200) = 201 ↔
        (s3.runCount ≠ s.runCount ∨ s3.renderCount ≠ s.renderCount)
      by_cases hm : (ensure_model_results c s).1.2 = true
      · rw [if_pos hm] at hrc
        rw [hm]
        simp only [Bool.true_or]
        constructor
        · intro _
          exact Or.inl (by omega)
        · intro _
          rfl
      · rw [if_neg hm] at hrc
        rw [Bool.eq_false_iff.mpr hm]
        simp only [Bool.false_or]
        by_cases hic : ic = true
        · have hneq := h32.mp hic
          rw [hren] at hneq
          rw [hic]
          constructor
          · intro _
            exact Or.inr hneq
          · intro _
            rfl
        · have heqr : s3.renderCount = s.renderCount := by
            by_cases hq : s3.renderCount =
                (ensure_model_results c s).2.renderCount
            · rw [hq, hren]
            · exact absurd (h32.mpr hq) hic
          rw [Bool.eq_false_iff.mpr hic]
          constructor
          · intro habs
            exact absurd habs (by decide)
          · intro hOr
            rcases hOr with hO | hO
            · exact ((hO (by omega)).elim)
            · exact ((hO heqr).elim)
  · intro resp s1 h
    rw [multi_model_data_eq] at h
    by_cases hz : (pjoin (pjoin (ensure_model_results c s).1.1
          (c.runId ++ "_" ++ scale_suffix_of c))
          (c.runId ++ "_" ++ v ++ "_" ++ scale_suffix_of c) ++ ".zip") ∈
        (ensure_model_results c s).2.files
    · rw [if_pos hz] at h
      simp only [Except.ok.injEq, Prod.mk.injEq] at h
      obtain ⟨hresp, hs1⟩ := h
      subst hresp
      subst hs1
      show (if (ensure_model_results c s).1.2 then 201 else 200) = 201 ↔
        ((ensure_model_results c s).2.runCount ≠ s.runCount ∨
          (ensure_model_results c s).2.renderCount ≠ s.renderCount)
      by_cases hm : (ensure_model_results c s).1.2 = true
      · rw [if_pos hm] at hrc
        rw [hm, hrc]
        constructor
        · intro _
          exact Or.inl (by omega)
        · intro _
          rfl
      · rw [if_neg hm] at hrc
        rw [Bool.eq_false_iff.mpr hm, hrc, hren]
        constructor
        · intro habs
          exact absurd habs (by decide)
        · intro hOr
          rcases hOr with hO | hO
          · exact ((hO rfl).elim)
          · exact ((hO rfl).elim)
    · rw [if_neg hz] at h
      rcases hE : ensure_image_output (ensure_model_results c s).1.1 v none c
          (ensure_model_results c s).2 with e | ⟨⟨asrc, ic⟩, s2⟩
      · rw [hE] at h
        exact absurd h (by simp)
      · rw [hE] at h
        simp only [Except.ok.injEq, Prod.mk.injEq] at h
        obtain ⟨hresp, hs1⟩ := h
        subst hresp
        subst hs1
        have hspec := ensure_image_output_ok_spec (ensure_model_results c s).1.1
          v none c (ensure_model_results c s).2 (asrc, ic) s2 hE
        have h21 : s2.runCount = (ensure_model_results c s).2.runCount :=
          hspec.1
        have h22 : (ic = true ↔
            s2.renderCount ≠ (ensure_model_results c s).2.renderCount) :=
          hspec.2.2
        show (if ((ensure_model_results c s).1.2 || ic) then 201 else 200)
            = 201 ↔
          (s2.runCount ≠ s.runCount ∨ s2.renderCount ≠ s.renderCount)
        by_cases hm : (ensure_model_results c s).1.2 = true
        · rw [if_pos hm] at hrc
          rw [hm]
          simp only [Bool.true_or]
          constructor
          · intro _
            exact Or.inl (by omega)
          · intro _
            rfl
        · rw [if_neg hm] at hrc
          rw [Bool.eq_false_iff.mpr hm]
          simp only [Bool.false_or]
          by_cases hic : ic = true
          · have hneq := h22.mp hic
            rw [hren] at hneq
            rw [hic]
            constructor
            · intro _
              exact Or.inr hneq
            · intro _
              rfl
          · have heqr : s2.renderCount = s.renderCount := by
              by_cases hq : s2.renderCount =
                  (ensure_model_results c s).2.renderCount
              · rw [hq, hren]
              · exact absurd (h22.mpr hq) hic
            rw [Bool.eq_false_iff.mpr hic]
            constructor
            · intro habs
              exact absurd habs (by decide)
            · intro hOr
              rcases hOr with hO | hO
              · exact ((hO (by omega)).elim)
              · exact ((hO heqr).elim)

/-- Witness for C8 amended: from a store holding the dataset of `cfgX`
but no image, `single_model_data` for segment 2 newly renders the image
and returns 201 even though the dataset was cached. -/
theorem endpoints_status_201_iff_collaborator_work_witness :
    Response.status ⟨"output/X/X_[1x2]/temperature",
        "X_temperature_2_[1x2].png", 201⟩ = 201 ↔
      (SysState.runCount
          ⟨["output/X/X_[1x2]/temperature/X_temperature_2_[1x2].png",
            "output/X/X.nc", "output/X"], 1, 1, false, 0⟩ ≠
        dsOnlyFS.runCount ∨
       SysState.renderCount
          ⟨["output/X/X_[1x2]/temperature/X_temperature_2_[1x2].png",
            "output/X/X.nc", "output/X"], 1, 1, false, 0⟩ ≠
        dsOnlyFS.renderCount) :=
  (endpoints_status_201_iff_collaborator_work "temperature" 2 cfgX dsOnlyFS).2.1
    ⟨"output/X/X_[1x2]/temperature", "X_temperature_2_[1x2].png", 201⟩
    ⟨["output/X/X_[1x2]/temperature/X_temperature_2_[1x2].png",
      "output/X/X.nc", "output/X"], 1, 1, false, 0⟩
    (by rfl)

end Api

/-!
## Statistics utilities (`src/data/statistics.py`)

Gridded data is embedded as a nested array of optional rationals: a
`leaf none` is an invalid cell (`nan` in the source — Python floats are
modelled as exact rationals, and `nan`/`None` as `none`), and a `node` is
an array whose elements are the next dimension down. `ndim` mirrors
numpy's dimensionality as seen by the recursive code (the nesting depth
along first elements).
-/

namespace Stats

inductive NDArray where
  | leaf : Option ℚ → NDArray
  | node : List NDArray → NDArray
deriving Repr

/-- Computes `data.ndim`: nesting depth (numpy dimensionality). -/
def ndim : NDArray → Nat
  | .leaf _ => 0
  | .node [] => 1
  | .node (x :: _) => ndim x + 1

mutual

/-- Embeds `sum_table` (statistics.py lines 297-334): recursive sum over an
array; a `node` contributes the sums and valid-element counts of its
subarrays, a valid number contributes `(modifier x, 1)`, and an invalid
(`nan`/`None`) cell contributes `(0, 0)`. -/
def sum_table : NDArray → (ℚ → ℚ) → ℚ × Nat
  | .node subs, modifier => sum_table_list subs modifier
  | .leaf (some x), modifier => (modifier x, 1)
  | .leaf none, _ => (0, 0)

/-- The `for subarray in table` accumulation loop of `sum_table`. -/
def sum_table_list : List NDArray → (ℚ → ℚ) → ℚ × Nat
  | [], _ => (0, 0)
  | t :: ts, modifier =>
      let sub := sum_table t modifier
      let rest := sum_table_list ts modifier
      (sub.1 + rest.1, sub.2 + rest.2)

end

/-- Embeds `mean` (statistics.py lines 337-352): sum of valid elements divided
by their count; the `ZeroDivisionError` raised when no element is valid
is caught and turned into `nan` (here `none`). -/
def mean (data : NDArray) : Option ℚ :=
  let r := sum_table data (fun x => x)
  if r.2 = 0 then none else some (r.1 / (r.2 : ℚ))

/-- Embeds `variance` (statistics.py lines 355-370): sum of squared valid
elements divided by their count; `ZeroDivisionError` becomes `nan`
(here `none`). -/
def variance (data : NDArray) : Option ℚ :=
  let r := sum_table data (fun x => x ^ 2)
  if r.2 = 0 then none else some (r.1 / (r.2 : ℚ))

/-- Computes `data.shape[0]`: length of the outermost dimension. -/
def shape0 : NDArray → Nat
  | .leaf _ => 0
  | .node l => l.length

/-- Computes `data.shape[1]`: length of the second dimension, read off the first
row (rectangular arrays). -/
def shape1 : NDArray → Nat
  | .node (r :: _) => shape0 r
  | _ => 0

/-- Computes `data[i]`: the i-th subarray. -/
def getRow : NDArray → Nat → NDArray
  | .node l, i => l.getD i (.node [])
  | .leaf _, _ => .node []

/-- Embeds `np.hstack` on two arrays of dimension at least 2: concatenation
along the second axis. -/
def hstack2 (a b : NDArray) : NDArray :=
  match a, b with
  | .node la, .node lb =>
      .node (List.zipWith (fun x y =>
        match x, y with
        | .node xs, .node ys => NDArray.node (xs ++ ys)
        | x, _ => x) la lb)
  | a, _ => a

mutual

/-- Embeds `convert_grid_data_to_table` (statistics.py lines 118-167): a
2-dimensional array is returned as is; a 3-dimensional array of shape
(time, lat, lon) is tabulated as `table[lat_band][time_seg] =
mean(data[time_seg, lat_band, :])`; above 3 dimensions the rows are
converted recursively and `np.hstack`-ed together. -/
def convert_grid_data_to_table : NDArray → NDArray
  | .leaf v => .leaf v
  | .node rows =>
      if ndim (.node rows) = 2 then .node rows
      else if ndim (.node rows) = 3 then
        .node ((List.range (shape1 (.node rows))).map fun lat_band =>
          .node ((List.range (shape0 (.node rows))).map fun time_seg =>
            .leaf (mean (getRow (getRow (.node rows) time_seg) lat_band))))
      else
        match convert_list rows with
        | [] => .node []
        | t :: ts => ts.foldl hstack2 t

/-- The `for row in data[1:]` recursion of `convert_grid_data_to_table`
(each row converted in turn before being `hstack`-ed). -/
def convert_list : List NDArray → List NDArray
  | [] => []
  | r :: rs => convert_grid_data_to_table r :: convert_list rs

end

/-! ### Shape predicates and the claim-side notion of a mean of valid
values -/

/-- Is this a 0-dimensional element? -/
def isLeaf : NDArray → Bool
  | .leaf _ => true
  | .node _ => false

/-- A one-dimensional array of `n` cells. -/
def isVec (n : Nat) : NDArray → Bool
  | .node l => l.length == n && l.all isLeaf
  | .leaf _ => false

/-- A two-dimensional array of shape `(r, c)`. -/
def isMat (r c : Nat) : NDArray → Bool
  | .node l => l.length == r && l.all (isVec c)
  | .leaf _ => false

/-- A three-dimensional array of shape `(t, la, lo)`. -/
def isCube (t la lo : Nat) : NDArray → Bool
  | .node l => l.length == t && l.all (isMat la lo)
  | .leaf _ => false

/-- The value of a cell, `none` for an invalid cell or a subarray. -/
def leafVal : NDArray → Option ℚ
  | .leaf v => v
  | .node _ => none

/-- The valid (non-`nan`) values of a one-dimensional array. -/
def validsOf : NDArray → List ℚ
  | .node l => l.filterMap leafVal
  | .leaf _ => []

/-- The claim's formulation of a tabulated entry: the mean of the valid
(non-`nan`) values of a one-dimensional slice, `none` when no value is
valid. -/
def meanOfValids (d : NDArray) : Option ℚ :=
  if validsOf d = [] then none
  else some ((validsOf d).sum / ((validsOf d).length : ℚ))

mutual

/-- No valid numeric element anywhere: every cell is `nan` (or the
array is empty). -/
def allNan : NDArray → Bool
  | .leaf none => true
  | .leaf (some _) => false
  | .node l => allNanList l

def allNanList : List NDArray → Bool
  | [] => true
  | x :: xs => allNan x && allNanList xs

end

/-! ### Lemmas -/

theorem sum_table_list_leaves (l : List NDArray) (h : l.all isLeaf = true) :
    sum_table_list l (fun x => x) =
      ((l.filterMap leafVal).sum, (l.filterMap leafVal).length) := by
  induction l with
  | nil => simp [sum_table_list]
  | cons x xs ih =>
      rw [List.all_cons, Bool.and_eq_true] at h
      obtain ⟨hx, hxs⟩ := h
      cases x with
      | node m => simp [isLeaf] at hx
      | leaf v =>
          cases v with
          | none =>
              simp [sum_table_list, sum_table, leafVal, List.filterMap_cons,
                ih hxs]
          | some q =>
              simp only [sum_table_list, sum_table, leafVal,
                List.filterMap_cons, ih hxs]
              refine Prod.ext ?_ ?_
              · simp
              · simp
                omega

theorem mean_vec (l : List NDArray) (h : l.all isLeaf = true) :
    mean (.node l) = meanOfValids (.node l) := by
  have hs : sum_table (.node l) (fun x => x) = sum_table_list l (fun x => x) := by
    simp [sum_table]
  unfold mean meanOfValids
  rw [hs, sum_table_list_leaves l h]
  simp only [validsOf]
  by_cases hn : l.filterMap leafVal = []
  · simp [hn]
  · have hlen : (l.filterMap leafVal).length ≠ 0 := by
      simpa [List.length_eq_zero] using hn
    rw [if_neg hlen, if_neg hn]

theorem ndim_vec (n : Nat) (d : NDArray) (h : isVec n d = true) :
    ndim d = 1 := by
  cases d with
  | leaf v => simp [isVec] at h
  | node l =>
      rw [isVec, Bool.and_eq_true] at h
      cases l with
      | nil => rfl
      | cons y ys =>
          have hy : isLeaf y = true :=
            List.all_eq_true.mp h.2 y (List.mem_cons_self y ys)
          cases y with
          | leaf v => rfl
          | node m => simp [isLeaf] at hy

theorem ndim_mat (r c : Nat) (d : NDArray) (hr : 0 < r)
    (h : isMat r c d = true) : ndim d = 2 := by
  cases d with
  | leaf v => simp [isMat] at h
  | node l =>
      rw [isMat, Bool.and_eq_true, beq_iff_eq] at h
      cases l with
      | nil =>
          rw [← h.1] at hr
          exact absurd hr (by simp)
      | cons x xs =>
          have hx : isVec c x = true :=
            List.all_eq_true.mp h.2 x (List.mem_cons_self x xs)
          show ndim x + 1 = 2
          rw [ndim_vec c x hx]

theorem ndim_cube (t la lo : Nat) (d : NDArray) (ht : 0 < t) (hla : 0 < la)
    (h : isCube t la lo d = true) : ndim d = 3 := by
  cases d with
  | leaf v => simp [isCube] at h
  | node l =>
      rw [isCube, Bool.and_eq_true, beq_iff_eq] at h
      cases l with
      | nil =>
          rw [← h.1] at ht
          exact absurd ht (by simp)
      | cons x xs =>
          have hx : isMat la lo x = true :=
            List.all_eq_true.mp h.2 x (List.mem_cons_self x xs)
          show ndim x + 1 = 3
          rw [ndim_mat la lo x hla hx]

theorem shape0_of_isMat (r c : Nat) (d : NDArray) (h : isMat r c d = true) :
    shape0 d = r := by
  cases d with
  | leaf v => simp [isMat] at h
  | node l =>
      rw [isMat, Bool.and_eq_true, beq_iff_eq] at h
      exact h.1

theorem isVec_all_leaves (n : Nat) (l : List NDArray)
    (h : isVec n (.node l) = true) : l.all isLeaf = true := by
  rw [isVec, Bool.and_eq_true] at h
  exact h.2

theorem getRow_isVec (la lo : Nat) (l : List NDArray)
    (h : isMat la lo (.node l) = true) (i : Nat) (hi : i < la) :
    isVec lo (getRow (.node l) i) = true := by
  rw [isMat, Bool.and_eq_true, beq_iff_eq] at h
  have hlen : i < l.length := by rw [h.1]; exact hi
  show isVec lo (l.getD i (.node [])) = true
  rw [List.getD_eq_getElem l (.node []) hlen]
  exact List.all_eq_true.mp h.2 _ (List.getElem_mem hlen)

theorem getRow_isMat (t la lo : Nat) (l : List NDArray)
    (h : isCube t la lo (.node l) = true) (j : Nat) (hj : j < t) :
    isMat la lo (getRow (.node l) j) = true := by
  rw [isCube, Bool.and_eq_true, beq_iff_eq] at h
  have hlen : j < l.length := by rw [h.1]; exact hj
  show isMat la lo (l.getD j (.node [])) = true
  rw [List.getD_eq_getElem l (.node []) hlen]
  exact List.all_eq_true.mp h.2 _ (List.getElem_mem hlen)

mutual

theorem sum_table_snd_of_allNan (d : NDArray) (h : allNan d = true)
    (m : ℚ → ℚ) : (sum_table d m).2 = 0 := by
  cases d with
  | leaf v =>
      cases v with
      | none => rfl
      | some q => simp [allNan] at h
  | node l =>
      have hl : allNanList l = true := by simpa [allNan] using h
      show (sum_table_list l m).2 = 0
      exact sum_table_list_snd_of_allNan l hl m

theorem sum_table_list_snd_of_allNan (l : List NDArray)
    (h : allNanList l = true) (m : ℚ → ℚ) : (sum_table_list l m).2 = 0 := by
  cases l with
  | nil => rfl
  | cons x xs =>
      rw [allNanList, Bool.and_eq_true] at h
      show (sum_table x m).2 + (sum_table_list xs m).2 = 0
      rw [sum_table_snd_of_allNan x h.1 m,
        sum_table_list_snd_of_allNan xs h.2 m]

end

/-! ### Claim theorems -/

/-- C10: when an array has no valid numeric element (every cell is `nan`,
or the array is empty), `mean` and `variance` return `nan` (the
`ZeroDivisionError` of the zero count is caught) instead of raising. -/
theorem mean_variance_nan_on_no_valid (d : NDArray)
    (h : allNan d = true) : mean d = none ∧ variance d = none := by
  have h1 := sum_table_snd_of_allNan d h (fun x => x)
  have h2 := sum_table_snd_of_allNan d h (fun x => x ^ 2)
  constructor
  · show (if (sum_table d fun x => x).2 = 0 then none
        else some ((sum_table d fun x => x).1 /
          (((sum_table d fun x => x).2 : Nat) : ℚ))) = none
    rw [h1, if_pos rfl]
  · show (if (sum_table d fun x => x ^ 2).2 = 0 then none
        else some ((sum_table d fun x => x ^ 2).1 /
          (((sum_table d fun x => x ^ 2).2 : Nat) : ℚ))) = none
    rw [h2, if_pos rfl]

/-- Witness for C10: an array holding one `nan` cell and one empty
subarray. -/
theorem mean_variance_nan_on_no_valid_witness :
    allNan (.node [.leaf none, .node []]) = true ∧
    (mean (.node [.leaf none, .node []]) = none ∧
     variance (.node [.leaf none, .node []]) = none) :=
  ⟨by decide, mean_variance_nan_on_no_valid (.node [.leaf none, .node []])
    (by decide)⟩

/-- C9: `convert_grid_data_to_table` returns a 2-dimensional input
unchanged, and maps a 3-dimensional input of shape (time, lat, lon) —
with at least one time segment and one latitude band, so that the nested
encoding carries the numpy dimensionality — to the (lat, time) table
whose entry at `(i, j)` is the mean of the valid (non-`nan`) values of
`data[j, i, :]`. -/
theorem convert_grid_data_to_table_spec :
    (∀ (d : NDArray) (r c : Nat), isMat r c d = true →
        convert_grid_data_to_table d = d) ∧
    (∀ (d : NDArray) (t la lo : Nat), 0 < t → 0 < la →
        isCube t la lo d = true →
        convert_grid_data_to_table d =
          NDArray.node ((List.range la).map fun i =>
            NDArray.node ((List.range t).map fun j =>
              NDArray.leaf (meanOfValids (getRow (getRow d j) i))))) := by
  constructor
  · intro d r c h
    cases d with
    | leaf v => simp [isMat] at h
    | node l =>
        cases l with
        | nil => simp [convert_grid_data_to_table, ndim, convert_list]
        | cons x xs =>
            have hx : isVec c x = true := by
              rw [isMat, Bool.and_eq_true] at h
              exact List.all_eq_true.mp h.2 x (List.mem_cons_self x xs)
            have h2 : ndim (NDArray.node (x :: xs)) = 2 := by
              show ndim x + 1 = 2
              rw [ndim_vec c x hx]
            simp only [convert_grid_data_to_table]
            rw [if_pos h2]
  · intro d t la lo ht hla h
    cases d with
    | leaf v => simp [isCube] at h
    | node l =>
        have hnd : ndim (NDArray.node l) = 3 :=
          ndim_cube t la lo (NDArray.node l) ht hla h
        have hcube := h
        rw [isCube, Bool.and_eq_true, beq_iff_eq] at hcube
        have hs0 : shape0 (NDArray.node l) = t := hcube.1
        have hs1 : shape1 (NDArray.node l) = la := by
          cases l with
          | nil =>
              rw [show ([] : List NDArray).length = 0 from rfl] at hcube
              omega
          | cons x xs =>
              show shape0 x = la
              exact shape0_of_isMat la lo x
                (List.all_eq_true.mp hcube.2 x (List.mem_cons_self x xs))
        simp only [convert_grid_data_to_table]
        rw [hnd, if_neg (by decide : ¬(3 = 2)), if_pos rfl, hs0, hs1]
        congr 1
        refine List.map_congr_left ?_
        intro i hi
        congr 1
        refine List.map_congr_left ?_
        intro j hj
        congr 1
        have hj' : j < t := List.mem_range.mp hj
        have hi' : i < la := List.mem_range.mp hi
        have hmat : isMat la lo (getRow (.node l) j) = true :=
          getRow_isMat t la lo l h j hj'
        rcases hg : getRow (NDArray.node l) j with v | m
        · rw [hg] at hmat
          simp [isMat] at hmat
        · rw [hg] at hmat
          have hvec : isVec lo (getRow (.node m) i) = true :=
            getRow_isVec la lo m hmat i hi'
          rcases hg2 : getRow (NDArray.node m) i with w | mm
          · rw [hg2] at hvec
            simp [isVec] at hvec
          · rw [hg2] at hvec
            exact mean_vec mm (isVec_all_leaves lo mm hvec)

/-- Witness for C9: a 1-by-2 matrix is returned unchanged, and a
(2, 1, 2)-shaped cube is tabulated to shape (1, 2) with entries the
means of valid values of its lon-slices. -/
theorem convert_grid_data_to_table_spec_witness :
    (isMat 1 2 (NDArray.node [.node [.leaf (some 1), .leaf none]]) = true ∧
     convert_grid_data_to_table
         (NDArray.node [.node [.leaf (some 1), .leaf none]]) =
       NDArray.node [.node [.leaf (some 1), .leaf none]]) ∧
    (0 < 2 ∧ 0 < 1 ∧
     isCube 2 1 2
         (NDArray.node [.node [.node [.leaf (some 1), .leaf (some 3)]],
           .node [.node [.leaf (some 5), .leaf none]]]) = true ∧
     convert_grid_data_to_table
         (NDArray.node [.node [.node [.leaf (some 1), .leaf (some 3)]],
           .node [.node [.leaf (some 5), .leaf none]]]) =
       NDArray.node ((List.range 1).map fun i =>
         NDArray.node ((List.range 2).map fun j =>
           NDArray.leaf (meanOfValids (getRow (getRow
             (NDArray.node [.node [.node [.leaf (some 1), .leaf (some 3)]],
               .node [.node [.leaf (some 5), .leaf none]]]) j) i))))) :=
  ⟨⟨by decide,
    convert_grid_data_to_table_spec.1
      (NDArray.node [.node [.leaf (some 1), .leaf none]]) 1 2 (by decide)⟩,
   by decide, by decide, by decide,
   convert_grid_data_to_table_spec.2
     (NDArray.node [.node [.node [.leaf (some 1), .leaf (some 3)]],
       .node [.node [.leaf (some 5), .leaf none]]]) 2 1 2
     (by decide) (by decide) (by decide)⟩

end Stats
